import Mathlib

/-!
Shallow embedding of `src/voucher_extractor.py` (the frame-sampling and
concurrent OCR-extraction pipeline) and proofs about it.

The embedding models:
  * the regular-expression matcher for the fixed constant
    `CODE_PATTERN = r'\b[A-Z0-9]{4}-[A-Z0-9]{4}-[A-Z0-9]{4}\b'`
    as used by `re.findall` (left-to-right, non-overlapping matches,
    ASCII word boundaries);
  * `extract_text_from_image` (the OCR client adapter) over an abstract
    model of the Vision service response;
  * `process_frame` (encode, recognize, match for one frame);
  * `extract_codes` (the extraction coordinator), including its read and
    release behaviour on every control path: the unopened-capture error,
    the `fps == 0` error, the `int(fps) == 0` division-by-zero path, and
    the normal path that samples frames at ordinals divisible by
    `int(fps)` and merges per-frame results into a set.

Python numeric semantics are made explicit: the OpenCV frame rate is a
float, modelled as either NaN or a rational; `int(fps)` truncates toward
zero (`pytrunc`); Python's `%` is floor-based (`pymod`).
-/

/-- ASCII word character, as in Python's `\w` / `\b` for the ASCII inputs
relevant here: `[A-Za-z0-9_]`. -/
def isWordChar (c : Char) : Bool :=
  (('A' ≤ c) && (c ≤ 'Z')) || (('a' ≤ c) && (c ≤ 'z')) ||
    (('0' ≤ c) && (c ≤ '9')) || (c == '_')

/-- Character class `[A-Z0-9]` of the voucher-code pattern. -/
def codeChar (c : Char) : Bool :=
  (('A' ≤ c) && (c ≤ 'Z')) || (('0' ≤ c) && (c ≤ '9'))

/-- A character list is exactly one voucher-code token:
`[A-Z0-9]{4}-[A-Z0-9]{4}-[A-Z0-9]{4}` (length 14, dashes at positions 4
and 9, code characters elsewhere). -/
def codeShape (m : List Char) : Bool :=
  (m.length == 14) &&
    (List.range 14).all (fun i =>
      if i = 4 ∨ i = 9 then m.getD i 'x' == '-' else codeChar (m.getD i 'x'))

/-- A string matches the lexical pattern `[A-Z0-9]{4}-[A-Z0-9]{4}-[A-Z0-9]{4}`
exactly (the whole string is one token). -/
def isCodeToken (s : String) : Bool := codeShape s.data

/-- Attempt to match the pattern at the head of `l`, including the trailing
word boundary `\b` (the character after the 14 matched ones, if any, must
not be a word character).  Returns the matched token and the rest. -/
def tryMatch (l : List Char) : Option (List Char × List Char) :=
  if codeShape (l.take 14) then
    match l.drop 14 with
    | [] => some (l.take 14, [])
    | c :: rest => if isWordChar c then none else some (l.take 14, c :: rest)
  else none

/-- Left-to-right scan of `re.findall`: at each position, if the previous
character was not a word character (the leading `\b`), try to match; on a
match, emit it and continue right after it (non-overlapping), otherwise
advance one character.  `fuel` bounds the recursion; it is initialised to
the length of the text, which suffices because every step consumes at
least one character. -/
def scanAux : Nat → Bool → List Char → List (List Char)
  | 0, _, _ => []
  | _ + 1, _, [] => []
  | fuel + 1, prevW, c :: rest =>
    if prevW then scanAux fuel (isWordChar c) rest
    else
      match tryMatch (c :: rest) with
      | some (m, rest2) => m :: scanAux fuel true rest2
      | none => scanAux fuel (isWordChar c) rest

/-- `re.findall(CODE_PATTERN, text)`: the ordered list of non-overlapping,
word-boundary-delimited occurrences of the voucher-code pattern. -/
def findall (s : String) : List String :=
  (scanAux s.data.length false s.data).map (fun m => String.mk m)

/-- Does the text contain any word-boundary-delimited occurrence of the
pattern?  `prevW` records whether the character before the current
position is a word character. -/
def hasOccurrence : Bool → List Char → Bool
  | _, [] => false
  | prevW, c :: rest =>
    ((!prevW) && (tryMatch (c :: rest)).isSome) || hasOccurrence (isWordChar c) rest

example : findall "WXYZ-1234-5678" = ["WXYZ-1234-5678"] := by decide
example : findall "AB12-CD34-EF5" = [] := by decide
example : findall "ab12-cd34-ef56" = [] := by decide
example : findall "XWXYZ-1234-5678" = [] := by decide
example : findall "WXYZ-1234-56789" = [] := by decide
example : findall "see WXYZ-1234-5678 and ABCD-0000-9999!" =
    ["WXYZ-1234-5678", "ABCD-0000-9999"] := by decide

/-! ### Python numeric semantics -/

/-- Python `int()` applied to a (finite) float/rational: truncation toward
zero. -/
def pytrunc (q : ℚ) : ℤ := if 0 ≤ q then ⌊q⌋ else -⌊-q⌋

/-- Python `%` on integers: floor-based remainder (`a - b * (a fdiv b)`,
taking the sign of the divisor), which is exactly `Int.fmod`; Python
raises `ZeroDivisionError` for `b = 0`, a case the caller
(`extract_codes`) handles separately. -/
def pymod (a b : ℤ) : ℤ := Int.fmod a b

lemma pytrunc_of_nonneg {q : ℚ} (h : 0 ≤ q) : pytrunc q = ⌊q⌋ := if_pos h

lemma pytrunc_intCast (n : ℤ) : pytrunc (n : ℚ) = n := by
  unfold pytrunc
  rcases le_or_lt 0 (n : ℚ) with h | h
  · rw [if_pos h, Int.floor_intCast]
  · rw [if_neg (not_le.mpr h), ← Int.cast_neg, Int.floor_intCast, neg_neg]

lemma pytrunc_zero : pytrunc 0 = 0 := by simpa using pytrunc_intCast 0

lemma pytrunc_one : pytrunc 1 = 1 := by simpa using pytrunc_intCast 1

lemma pytrunc_neg_thirty : pytrunc (-30 : ℚ) = -30 := by
  simpa using pytrunc_intCast (-30)

lemma pytrunc_three_halves : pytrunc (3 / 2 : ℚ) = 1 := by
  rw [pytrunc_of_nonneg (by norm_num), Int.floor_eq_iff]
  norm_num

lemma pytrunc_half : pytrunc (1 / 2 : ℚ) = 0 := by
  rw [pytrunc_of_nonneg (by norm_num), Int.floor_eq_zero_iff]
  constructor <;> norm_num

lemma pytrunc_neg_half : pytrunc (-(1 / 2) : ℚ) = 0 := by
  unfold pytrunc
  rw [if_neg (by norm_num), neg_neg,
    show ⌊(1 / 2 : ℚ)⌋ = 0 from by
      rw [Int.floor_eq_zero_iff]
      exact Set.mem_Ico.mpr ⟨by norm_num, by norm_num⟩,
    neg_zero]

example : pymod 0 (-30) = 0 := by decide
example : pymod 1 (-30) = -29 := by decide
example : pymod 29 29 = 0 := by decide

/-! ### Data model: service responses, frames, captures -/

deriving instance DecidableEq for Except

/-- Response of the Vision `text_detection` call when the call itself
returns: `error.message` (empty means no error) and the list of
`text_annotations` descriptions. -/
structure VisionResponse where
  errorMessage : String
  detections : List String
deriving DecidableEq

/-- One invocation of the external text-recognition service: either the
call returns a response, or it raises a transport-level exception with
message `m`. -/
inductive ServiceCall where
  | ok (resp : VisionResponse)
  | transportFault (m : String)
deriving DecidableEq

/-- A frame of the video, abstracted to what determines its processing:
whether `cv2.imencode` succeeds on it, and the behaviour of the OCR
service call on its encoded bytes. -/
structure Frame where
  encodeOk : Bool
  service : ServiceCall
deriving DecidableEq

/-- The opened `cv2.VideoCapture`: whether it opened, the reported
`CAP_PROP_FPS` (a float: NaN or a rational), and the finite stream of
frames `read` will yield before reporting end-of-stream. -/
inductive FrameRate where
  | nan
  | val (q : ℚ)
deriving DecidableEq

structure Capture where
  opened : Bool
  fps : FrameRate
  frames : List Frame
deriving DecidableEq

/-- Python exceptions distinguished by the extraction paths. -/
inductive PyError where
  | valueError (msg : String)
  | zeroDivisionError
deriving DecidableEq

/-- Observable outcome of one `extract_codes` call: how many `cap.read()`
calls were made, how many `cap.release()` calls were made, and the
returned set or the raised exception. -/
structure RunResult where
  reads : Nat
  releases : Nat
  outcome : Except PyError (Finset String)
deriving DecidableEq

/-! ### The pipeline functions -/

/-- `extract_text_from_image`: on a transport fault the broad `except`
rewraps the exception message; on a service-reported error
(`response.error.message` non-empty) the inner `Exception("API Error: …")`
is rewrapped the same way; otherwise the primary annotation's text is
returned, or `""` when there are no detections.  The `.error` case is the
spec's `RecognitionServiceError` (realised as `RuntimeError` in the
source). -/
def extract_text_from_image : ServiceCall → Except String String
  | .transportFault m => .error ("Error extracting text from image: " ++ m)
  | .ok resp =>
    if resp.errorMessage = "" then .ok (resp.detections.headD "")
    else .error ("Error extracting text from image: API Error: " ++ resp.errorMessage)

/-- `process_frame`: encode the frame as JPEG (`ValueError` on failure),
run OCR, and return all pattern matches in the recognized text. -/
def process_frame (f : Frame) : Except String (List String) :=
  if f.encodeOk then
    match extract_text_from_image f.service with
    | .error e => .error e
    | .ok text => .ok (findall text)
  else .error "Failed to encode frame as JPEG"

/-- The frames the coordinator's loop dispatches to the executor: those
whose ordinal `i` satisfies `i % frame_interval == 0` in Python
arithmetic.  Requires `interval ≠ 0` (otherwise the loop raises). -/
def sampled (interval : ℤ) (frames : List Frame) : List Frame :=
  ((frames.enum.filter (fun p => pymod p.1 interval = 0)).map Prod.snd)

/-- The ordinals sampled among `0, …, total - 1`. -/
def sampledIdx (interval : ℤ) (total : Nat) : List Nat :=
  (List.range total).filter (fun i => pymod i interval = 0)

/-- The result-collection loop: iterate over the futures, adding each
successful frame's codes to the set and swallowing (printing) per-frame
exceptions. -/
def collectCodes (fs : List Frame) : Finset String :=
  fs.foldl
    (fun acc f =>
      match process_frame f with
      | .ok cs => acc ∪ cs.toFinset
      | .error _ => acc)
    ∅

/-- `extract_codes`, with every control path of the source made explicit:

* capture not opened: `ValueError("Unable to open video file")`, no reads,
  no release;
* `fps` NaN: `fps == 0` is false, and `int(fps)` raises
  `ValueError("cannot convert float NaN to integer")` before any read and
  before the release;
* `fps == 0`: `ValueError("Invalid video frame rate")` before any read and
  before the release;
* `int(fps) == 0` (i.e. `-1 < fps < 1`, `fps ≠ 0`): the loop reads the
  first frame, then `frame_count % frame_interval` raises
  `ZeroDivisionError`, skipping the release — unless the stream is empty,
  in which case the loop exits on the failed read and the call returns the
  empty set normally;
* otherwise: the loop reads every frame plus one end-of-stream read,
  dispatches the sampled frames, merges the collected codes, releases the
  capture once and returns the set. -/
def extract_codes (cap : Capture) : RunResult :=
  if cap.opened then
    match cap.fps with
    | .nan => ⟨0, 0, .error (.valueError "cannot convert float NaN to integer")⟩
    | .val q =>
      if q = 0 then ⟨0, 0, .error (.valueError "Invalid video frame rate")⟩
      else if pytrunc q = 0 then
        match cap.frames with
        | [] => ⟨1, 1, .ok ∅⟩
        | _ :: _ => ⟨1, 0, .error .zeroDivisionError⟩
      else
        ⟨cap.frames.length + 1, 1, .ok (collectCodes (sampled (pytrunc q) cap.frames))⟩
  else ⟨0, 0, .error (.valueError "Unable to open video file")⟩

/-- A frame whose OCR text is `t` (encode succeeds, service succeeds). -/
def okFrame (t : String) : Frame := ⟨true, .ok ⟨"", [t]⟩⟩

/-- A frame whose OCR call fails with a service error. -/
def badFrame : Frame := ⟨true, .ok ⟨"boom", []⟩⟩

/-! ### Unfolding lemmas for the control paths of `extract_codes` -/

lemma extract_codes_not_opened (cap : Capture) (ho : cap.opened = false) :
    extract_codes cap = ⟨0, 0, .error (.valueError "Unable to open video file")⟩ := by
  simp [extract_codes, ho]

lemma extract_codes_nan (cap : Capture) (ho : cap.opened = true)
    (hf : cap.fps = .nan) :
    extract_codes cap =
      ⟨0, 0, .error (.valueError "cannot convert float NaN to integer")⟩ := by
  simp [extract_codes, ho, hf]

lemma extract_codes_fps_zero (cap : Capture) (ho : cap.opened = true)
    (hf : cap.fps = .val 0) :
    extract_codes cap = ⟨0, 0, .error (.valueError "Invalid video frame rate")⟩ := by
  simp [extract_codes, ho, hf, pytrunc_zero]

lemma extract_codes_interval_zero (cap : Capture) (q : ℚ) (ho : cap.opened = true)
    (hf : cap.fps = .val q) (hq : q ≠ 0) (hk : pytrunc q = 0)
    (hne : cap.frames ≠ []) :
    extract_codes cap = ⟨1, 0, .error .zeroDivisionError⟩ := by
  match hfr : cap.frames with
  | [] => exact absurd hfr hne
  | f :: fs => simp [extract_codes, ho, hf, hq, hk, hfr]

lemma extract_codes_interval_zero_empty (cap : Capture) (q : ℚ)
    (ho : cap.opened = true) (hf : cap.fps = .val q) (hq : q ≠ 0)
    (hk : pytrunc q = 0) (he : cap.frames = []) :
    extract_codes cap = ⟨1, 1, .ok ∅⟩ := by
  simp [extract_codes, ho, hf, hq, hk, he]

lemma extract_codes_normal (cap : Capture) (q : ℚ) (ho : cap.opened = true)
    (hf : cap.fps = .val q) (hq : q ≠ 0) (hk : pytrunc q ≠ 0) :
    extract_codes cap =
      ⟨cap.frames.length + 1, 1,
        .ok (collectCodes (sampled (pytrunc q) cap.frames))⟩ := by
  simp [extract_codes, ho, hf, hq, hk]

example :
    extract_codes ⟨true, .val 1, [okFrame "WXYZ-1234-5678", badFrame]⟩ =
      ⟨3, 1, .ok {"WXYZ-1234-5678"}⟩ := by
  rw [extract_codes_normal _ 1 rfl rfl one_ne_zero (by rw [pytrunc_one]; decide),
    pytrunc_one]
  decide

example :
    extract_codes ⟨true, .val 0, [okFrame "WXYZ-1234-5678"]⟩ =
      ⟨0, 0, .error (.valueError "Invalid video frame rate")⟩ :=
  extract_codes_fps_zero _ rfl rfl

example :
    extract_codes ⟨true, .val (1 / 2), [okFrame "WXYZ-1234-5678"]⟩ =
      ⟨1, 0, .error .zeroDivisionError⟩ :=
  extract_codes_interval_zero _ (1 / 2) rfl rfl (by norm_num) pytrunc_half
    (by decide)

example :
    extract_codes ⟨true, .val (-30), [okFrame "WXYZ-1234-5678"]⟩ =
      ⟨2, 1, .ok {"WXYZ-1234-5678"}⟩ := by
  rw [extract_codes_normal _ (-30) rfl rfl (by norm_num)
      (by rw [pytrunc_neg_thirty]; decide),
    pytrunc_neg_thirty]
  decide

/-! ### Lemmas about the matcher -/

lemma tryMatch_codeShape {l m rest : List Char}
    (h : tryMatch l = some (m, rest)) : codeShape m = true := by
  unfold tryMatch at h
  split at h
  · rename_i hc
    split at h
    · simp only [Option.some.injEq, Prod.mk.injEq] at h
      obtain ⟨rfl, -⟩ := h
      exact hc
    · split at h
      · simp at h
      · simp only [Option.some.injEq, Prod.mk.injEq] at h
        obtain ⟨rfl, -⟩ := h
        exact hc
  · simp at h

lemma codeShape_of_mem_scanAux :
    ∀ (fuel : Nat) (prevW : Bool) (l m : List Char),
      m ∈ scanAux fuel prevW l → codeShape m = true := by
  intro fuel
  induction fuel with
  | zero => intro prevW l m h; simp [scanAux] at h
  | succ fuel ih =>
    intro prevW l m h
    match l with
    | [] => simp [scanAux] at h
    | c :: rest =>
      simp only [scanAux] at h
      split at h
      · exact ih _ _ _ h
      · split at h
        · rename_i m' rest2 htm
          rcases List.mem_cons.mp h with rfl | h'
          · exact tryMatch_codeShape htm
          · exact ih _ _ _ h'
        · exact ih _ _ _ h

/-- Every string returned by the matcher matches the lexical pattern
exactly. -/
lemma isCodeToken_of_mem_findall {s t : String} (h : t ∈ findall s) :
    isCodeToken t = true := by
  unfold findall at h
  rcases List.mem_map.mp h with ⟨m, hm, rfl⟩
  exact codeShape_of_mem_scanAux _ _ _ _ hm

lemma scanAux_eq_nil_of_no_occurrence :
    ∀ (l : List Char) (fuel : Nat) (prevW : Bool),
      hasOccurrence prevW l = false → scanAux fuel prevW l = [] := by
  intro l
  induction l with
  | nil => intro fuel prevW _; cases fuel <;> simp [scanAux]
  | cons c rest ih =>
    intro fuel prevW h
    rw [hasOccurrence, Bool.or_eq_false_iff] at h
    obtain ⟨h1, h2⟩ := h
    cases fuel with
    | zero => simp [scanAux]
    | succ fuel =>
      simp only [scanAux]
      by_cases hp : prevW
      · simp [hp, ih fuel _ h2]
      · cases htm : tryMatch (c :: rest) with
        | none => simp [hp, htm, ih fuel _ h2]
        | some v => rw [htm] at h1; simp [hp] at h1

/-- On a text with no occurrence of the pattern the matcher returns the
empty list. -/
lemma findall_eq_nil_of_no_occurrence {s : String}
    (h : hasOccurrence false s.data = false) : findall s = [] := by
  unfold findall
  rw [scanAux_eq_nil_of_no_occurrence s.data s.data.length false h]
  rfl

/-! ### Lemmas about sampling and counting -/

lemma pymod_natCast (i k : Nat) : pymod (i : ℤ) (k : ℤ) = ((i % k : Nat) : ℤ) := by
  unfold pymod
  simpa using (Int.ofNat_fmod i k).symm

lemma pymod_eq_zero_iff (i k : Nat) :
    pymod (i : ℤ) (k : ℤ) = 0 ↔ i % k = 0 := by
  rw [pymod_natCast]
  exact Int.natCast_eq_zero

/-- For a positive interval, the Python sampling condition is ordinary
Nat divisibility of the ordinal. -/
lemma sampled_eq_filter (k : ℤ) (fs : List Frame) (hk : 0 < k) :
    sampled k fs =
      (fs.enum.filter (fun p => p.1 % k.toNat = 0)).map Prod.snd := by
  unfold sampled
  congr 1
  apply List.filter_congr
  intro p _
  rw [decide_eq_decide]
  have hkk : ((k.toNat : ℕ) : ℤ) = k := Int.toNat_of_nonneg hk.le
  rw [← hkk]
  exact pymod_eq_zero_iff p.1 k.toNat

lemma sampledIdx_eq_filter (k : ℤ) (n : Nat) (hk : 0 < k) :
    sampledIdx k n = (List.range n).filter (fun i => i % k.toNat = 0) := by
  unfold sampledIdx
  apply List.filter_congr
  intro i _
  rw [decide_eq_decide]
  have hkk : ((k.toNat : ℕ) : ℤ) = k := Int.toNat_of_nonneg hk.le
  rw [← hkk]
  exact pymod_eq_zero_iff i k.toNat

lemma length_filter_zip_fst {α : Type} (P : Nat → Bool) :
    ∀ (xs : List Nat) (ys : List α), ys.length = xs.length →
      ((xs.zip ys).filter (fun p => P p.1)).length = (xs.filter P).length := by
  intro xs
  induction xs with
  | nil => intro ys _; simp
  | cons x xs ih =>
    intro ys h
    cases ys with
    | nil => simp at h
    | cons y ys =>
      rw [List.zip_cons_cons, List.filter_cons, List.filter_cons]
      cases hp : P x with
      | false => simpa [hp] using ih ys (by simpa using h)
      | true => simpa [hp] using ih ys (by simpa using h)

/-- How many of the ordinals `0, …, n-1` are multiples of `k`:
`⌈n / k⌉`, in its `Nat` form `(n + k - 1) / k`. -/
lemma length_filter_mod_range (k : Nat) (hk : 0 < k) (n : Nat) :
    ((List.range n).filter (fun i => i % k = 0)).length = (n + k - 1) / k := by
  induction n with
  | zero => simp [Nat.div_eq_of_lt (show k - 1 < k by omega)]
  | succ n ih =>
    rw [List.range_succ, List.filter_append, List.length_append, ih]
    by_cases h : n % k = 0
    · obtain ⟨q, rfl⟩ := Nat.dvd_of_mod_eq_zero h
      have hL : (k * q + k - 1) / k = q := by
        rw [show k * q + k - 1 = k * q + (k - 1) by omega,
          Nat.mul_add_div hk, Nat.div_eq_of_lt (by omega), Nat.add_zero]
      have hR : (k * q + 1 + k - 1) / k = q + 1 := by
        rw [show k * q + 1 + k - 1 = k * (q + 1) by rw [Nat.mul_succ]; omega,
          Nat.mul_div_cancel_left _ hk]
      rw [hL, hR]
      simp [Nat.mul_mod_right]
    · obtain ⟨q, r, hr, rfl⟩ : ∃ q r, r < k ∧ n = k * q + r :=
        ⟨n / k, n % k, Nat.mod_lt _ hk, by
          have := Nat.div_add_mod n k; omega⟩
      have hr0 : r ≠ 0 := by
        intro h0
        exact h (by simp [h0, Nat.mul_mod_right])
      have hL : (k * q + r + k - 1) / k = q + 1 := by
        rw [show k * q + r + k - 1 = k * (q + 1) + (r - 1) by
            rw [Nat.mul_succ]; omega,
          Nat.mul_add_div hk, Nat.div_eq_of_lt (by omega), Nat.add_zero]
      have hR : (k * q + r + 1 + k - 1) / k = q + 1 := by
        rw [show k * q + r + 1 + k - 1 = k * (q + 1) + r by
            rw [Nat.mul_succ]; omega,
          Nat.mul_add_div hk, Nat.div_eq_of_lt hr, Nat.add_zero]
      rw [hL, hR]
      simp [h]

/-- The number of sampled frames, as a count over ordinals. -/
lemma length_sampled (k : ℤ) (fs : List Frame) (hk : 0 < k) :
    (sampled k fs).length =
      ((List.range fs.length).filter (fun i => i % k.toNat = 0)).length := by
  rw [sampled_eq_filter k fs hk, List.length_map, List.enum_eq_zip_range]
  exact length_filter_zip_fst (fun i => decide (i % k.toNat = 0)) _ _ (by simp)

/-! ### Lemmas about result collection -/

lemma mem_foldl_collect (fs : List Frame) (acc : Finset String) (c : String) :
    c ∈ fs.foldl
        (fun acc f =>
          match process_frame f with
          | .ok cs => acc ∪ cs.toFinset
          | .error _ => acc)
        acc ↔
      c ∈ acc ∨ ∃ f ∈ fs, ∃ cs, process_frame f = .ok cs ∧ c ∈ cs := by
  induction fs generalizing acc with
  | nil => simp
  | cons f fs ih =>
    rw [List.foldl_cons]
    cases hpf : process_frame f with
    | ok cs =>
      dsimp only
      rw [ih]
      simp only [Finset.mem_union, List.mem_toFinset, List.mem_cons]
      constructor
      · rintro (⟨hc | hc⟩ | ⟨g, hg, cs', hcs', hc⟩)
        · exact Or.inl hc
        · exact Or.inr ⟨f, Or.inl rfl, cs, hpf, hc⟩
        · exact Or.inr ⟨g, Or.inr hg, cs', hcs', hc⟩
      · rintro (hc | ⟨g, rfl | hg, cs', hcs', hc⟩)
        · exact Or.inl (Or.inl hc)
        · rw [hpf] at hcs'
          injection hcs' with hcs'
          exact Or.inl (Or.inr (hcs' ▸ hc))
        · exact Or.inr ⟨g, hg, cs', hcs', hc⟩
    | error e =>
      dsimp only
      rw [ih]
      constructor
      · rintro (hc | ⟨g, hg, cs', hcs', hc⟩)
        · exact Or.inl hc
        · exact Or.inr ⟨g, List.mem_cons_of_mem _ hg, cs', hcs', hc⟩
      · rintro (hc | ⟨g, hg, cs', hcs', hc⟩)
        · exact Or.inl hc
        · rcases List.mem_cons.mp hg with rfl | hg'
          · rw [hpf] at hcs'; cases hcs'
          · exact Or.inr ⟨g, hg', cs', hcs', hc⟩

/-- Membership in the merged result set: exactly the codes of the frames
whose unit of work succeeded. -/
lemma mem_collectCodes {fs : List Frame} {c : String} :
    c ∈ collectCodes fs ↔
      ∃ f ∈ fs, ∃ cs, process_frame f = .ok cs ∧ c ∈ cs := by
  unfold collectCodes
  rw [mem_foldl_collect]
  simp

/-- Collecting the per-frame outcomes in any other order yields the same
set. -/
lemma collectCodes_perm {l₁ l₂ : List Frame} (h : l₁.Perm l₂) :
    collectCodes l₁ = collectCodes l₂ := by
  ext c
  rw [mem_collectCodes, mem_collectCodes]
  constructor
  · rintro ⟨f, hf, cs, hcs, hc⟩
    exact ⟨f, h.mem_iff.mp hf, cs, hcs, hc⟩
  · rintro ⟨f, hf, cs, hcs, hc⟩
    exact ⟨f, h.mem_iff.mpr hf, cs, hcs, hc⟩

/-! ### Concrete captures used in witnesses and counterexamples -/

/-- Two frames with distinct codes, reported frame rate `1.5`. -/
def capAB : Capture :=
  ⟨true, .val (3 / 2), [okFrame "AAAA-AAAA-AAAA", okFrame "BBBB-BBBB-BBBB"]⟩

/-- Three frames at 1 fps: two good frames around one whose encoding
fails. -/
def capIsol : Capture :=
  ⟨true, .val 1,
    [okFrame "AAAA-AAAA-AAAA", ⟨false, .ok ⟨"", []⟩⟩, okFrame "BBBB-BBBB-BBBB"]⟩

/-- Two frames at 1 fps that both resolve to the same code. -/
def capDup : Capture :=
  ⟨true, .val 1, [okFrame "ABCD-1234-EFGH", okFrame "ABCD-1234-EFGH"]⟩

/-- Two frames at 1 fps with distinct codes. -/
def capOrd : Capture :=
  ⟨true, .val 1, [okFrame "AAAA-AAAA-AAAA", okFrame "BBBB-BBBB-BBBB"]⟩

/-! ### Claims -/

/-- Claim C1, amended.  Only `fps == 0` is rejected with the
`InvalidFrameRate` error (`ValueError("Invalid video frame rate")`), with
zero reads and before any frame work; a NaN frame rate also fails before
any read, but with the distinct `ValueError` raised by `int(float('nan'))`;
a negative frame rate is never rejected with `InvalidFrameRate`: at least
one frame read is performed, and the outcome — normal completion when
`fps ≤ -1` (see the counterexample at `-30`), `ZeroDivisionError` when
`-1 < fps < 0` — is never the `InvalidFrameRate` error. -/
theorem fps_invalid_rejected_before_read (cap : Capture) (ho : cap.opened = true) :
    (cap.fps = .val 0 →
      extract_codes cap = ⟨0, 0, .error (.valueError "Invalid video frame rate")⟩) ∧
    (cap.fps = .nan →
      extract_codes cap =
        ⟨0, 0, .error (.valueError "cannot convert float NaN to integer")⟩) ∧
    (∀ q : ℚ, cap.fps = .val q → q < 0 →
      1 ≤ (extract_codes cap).reads ∧
      (extract_codes cap).outcome ≠ .error (.valueError "Invalid video frame rate")) := by
  refine ⟨fun hf => extract_codes_fps_zero cap ho hf,
          fun hf => extract_codes_nan cap ho hf, ?_⟩
  intro q hf hq
  have hq0 : q ≠ 0 := ne_of_lt hq
  by_cases hk : pytrunc q = 0
  · cases hfr : cap.frames with
    | nil =>
      rw [extract_codes_interval_zero_empty cap q ho hf hq0 hk hfr]
      exact ⟨le_refl 1, by simp⟩
    | cons f fs =>
      rw [extract_codes_interval_zero cap q ho hf hq0 hk (by rw [hfr]; simp)]
      exact ⟨le_refl 1, by simp⟩
  · rw [extract_codes_normal cap q ho hf hq0 hk]
    exact ⟨Nat.le_add_left 1 _, by simp⟩

/-- Claim C1, witness for the amended theorem at concrete captures:
`fps = 0` and NaN fail before any read, and `fps = -0.5` (the
zero-division regime of negative rates) performs a read and does not
produce `InvalidFrameRate`. -/
theorem fps_invalid_rejected_before_read_witness :
    extract_codes (⟨true, .val 0, [okFrame "WXYZ-1234-5678"]⟩ : Capture) =
      ⟨0, 0, .error (.valueError "Invalid video frame rate")⟩ ∧
    extract_codes (⟨true, .nan, [okFrame "WXYZ-1234-5678"]⟩ : Capture) =
      ⟨0, 0, .error (.valueError "cannot convert float NaN to integer")⟩ ∧
    1 ≤ (extract_codes (⟨true, .val (-(1 / 2)), [okFrame "WXYZ-1234-5678"]⟩ : Capture)).reads ∧
    (extract_codes (⟨true, .val (-(1 / 2)), [okFrame "WXYZ-1234-5678"]⟩ : Capture)).outcome ≠
      .error (.valueError "Invalid video frame rate") :=
  ⟨(fps_invalid_rejected_before_read _ rfl).1 rfl,
   (fps_invalid_rejected_before_read _ rfl).2.1 rfl,
   (fps_invalid_rejected_before_read _ rfl).2.2 (-(1 / 2)) rfl (by norm_num)⟩

/-- Claim C1, counterexample to the claim as stated: a source reporting
the negative frame rate `-30` is not rejected with `InvalidFrameRate`
and zero reads; the call reads both the single frame and the
end-of-stream, and returns normally (frame ordinal 0 is sampled, since
`0 % -30 == 0` in Python). -/
theorem negative_fps_not_rejected :
    (extract_codes (⟨true, .val (-30), [okFrame "WXYZ-1234-5678"]⟩ : Capture)).reads = 2 ∧
    (extract_codes (⟨true, .val (-30), [okFrame "WXYZ-1234-5678"]⟩ : Capture)).outcome =
      .ok {"WXYZ-1234-5678"} := by
  rw [extract_codes_normal _ (-30) rfl rfl (by norm_num)
      (by rw [pytrunc_neg_thirty]; decide)]
  refine ⟨rfl, ?_⟩
  rw [pytrunc_neg_thirty]
  decide

/-- Claim C2, amended.  For `fps ≥ 1` the coordinator dispatches per-frame
work for exactly the frames whose ordinal `i` satisfies
`i mod int(fps) == 0` — the interval is the *truncation* `int(fps)`, not
`round(fps)` — for a total of `⌈total_frames / int(fps)⌉` sampled frames
(written in its `Nat` form `(total + k - 1) / k`). -/
theorem frame_sampler_trunc_interval (cap : Capture) (q : ℚ)
    (ho : cap.opened = true) (hf : cap.fps = .val q) (hq : 1 ≤ q) :
    (extract_codes cap).outcome =
      .ok (collectCodes (sampled (pytrunc q) cap.frames)) ∧
    sampled (pytrunc q) cap.frames =
      (cap.frames.enum.filter (fun p => p.1 % (pytrunc q).toNat = 0)).map Prod.snd ∧
    (sampled (pytrunc q) cap.frames).length =
      (cap.frames.length + (pytrunc q).toNat - 1) / (pytrunc q).toNat := by
  have hq0 : q ≠ 0 := by
    intro h
    rw [h] at hq
    exact absurd hq (by norm_num)
  have hkpos : 0 < pytrunc q := by
    have h1 : (1 : ℤ) ≤ ⌊q⌋ := Int.le_floor.mpr (by exact_mod_cast hq)
    rw [pytrunc_of_nonneg (le_trans zero_le_one hq)]
    omega
  have hkn : 0 < (pytrunc q).toNat := by omega
  refine ⟨?_, sampled_eq_filter _ _ hkpos, ?_⟩
  · rw [extract_codes_normal cap q ho hf hq0 hkpos.ne']
  · rw [length_sampled _ _ hkpos, length_filter_mod_range _ hkn]

/-- Claim C2, witness: the amended theorem applied to a concrete 1.5 fps,
two-frame capture. -/
theorem frame_sampler_trunc_interval_witness :
    (extract_codes capAB).outcome =
      .ok (collectCodes (sampled (pytrunc (3 / 2)) capAB.frames)) ∧
    sampled (pytrunc (3 / 2)) capAB.frames =
      (capAB.frames.enum.filter
        (fun p => p.1 % (pytrunc (3 / 2)).toNat = 0)).map Prod.snd ∧
    (sampled (pytrunc (3 / 2)) capAB.frames).length =
      (capAB.frames.length + (pytrunc (3 / 2)).toNat - 1) / (pytrunc (3 / 2)).toNat :=
  frame_sampler_trunc_interval capAB (3 / 2) rfl rfl (by norm_num)

/-- Claim C2, counterexample to the claim as stated: for `fps = 1.5`,
`round(fps) = 2`, so the claim predicts that only ordinals divisible by 2
are dispatched (one frame of two, `⌈2/2⌉ = 1`); but the code uses
`int(1.5) = 1` and dispatches both frames — the second frame's code
appears in the result even though its ordinal 1 is not a multiple of 2. -/
theorem sampling_interval_not_round :
    round (3 / 2 : ℚ) = 2 ∧
    (extract_codes capAB).outcome = .ok {"AAAA-AAAA-AAAA", "BBBB-BBBB-BBBB"} ∧
    ¬(1 % 2 = 0) := by
  refine ⟨?_, ?_, by decide⟩
  · rw [round_eq, show (3 / 2 + 1 / 2 : ℚ) = 2 by norm_num,
      show (2 : ℚ) = ((2 : ℤ) : ℚ) by norm_num, Int.floor_intCast]
  · rw [extract_codes_normal capAB (3 / 2) rfl rfl (by norm_num)
        (by rw [pytrunc_three_halves]; decide)]
    rw [pytrunc_three_halves]
    decide

/-- Claim C3, amended.  The capture is released exactly once on the
normal exit paths (success, including success with per-frame failures),
but on the fatal `InvalidFrameRate` path (`fps == 0`) `cap.release()` is
never reached: the `ValueError` is raised before it and there is no
`try/finally`. -/
theorem release_on_success_paths (cap : Capture) (q : ℚ) (ho : cap.opened = true)
    (hf : cap.fps = .val q) :
    (q ≠ 0 → pytrunc q ≠ 0 → (extract_codes cap).releases = 1) ∧
    (q = 0 → (extract_codes cap).releases = 0) := by
  constructor
  · intro hq hk
    rw [extract_codes_normal cap q ho hf hq hk]
  · intro hq
    rw [extract_codes_fps_zero cap ho (hq ▸ hf)]

/-- Claim C3, witness: a run with one good and one failing frame releases
the capture exactly once. -/
theorem release_on_success_paths_witness :
    (1 : ℚ) ≠ 0 ∧ pytrunc 1 ≠ 0 ∧
    (extract_codes (⟨true, .val 1, [okFrame "WXYZ-1234-5678", badFrame]⟩ : Capture)).releases = 1 := by
  refine ⟨one_ne_zero, ?_, ?_⟩
  · rw [pytrunc_one]; decide
  · exact (release_on_success_paths _ 1 rfl rfl).1 one_ne_zero
      (by rw [pytrunc_one]; decide)

/-- Claim C3, counterexample to the claim as stated: on the fatal
`InvalidFrameRate` path the capture is released zero times, not exactly
once. -/
theorem fatal_path_skips_release :
    (extract_codes (⟨true, .val 0, [okFrame "WXYZ-1234-5678"]⟩ : Capture)).releases = 0 ∧
    (extract_codes (⟨true, .val 0, [okFrame "WXYZ-1234-5678"]⟩ : Capture)).releases ≠ 1 ∧
    (extract_codes (⟨true, .val 0, [okFrame "WXYZ-1234-5678"]⟩ : Capture)).outcome =
      .error (.valueError "Invalid video frame rate") := by
  rw [extract_codes_fps_zero _ rfl rfl]
  exact ⟨rfl, by decide, rfl⟩

/-- Claim C4.  On any valid run (`fps ≠ 0`, `int(fps) ≠ 0`), whatever the
per-frame outcomes, the call returns normally with the merged set, and
every code of every successfully processed sampled frame is in the
result: per-frame failures are isolated and do not affect the call's
success status. -/
theorem per_frame_failure_isolation (cap : Capture) (q : ℚ)
    (ho : cap.opened = true) (hf : cap.fps = .val q) (hq : q ≠ 0)
    (hk : pytrunc q ≠ 0) :
    (extract_codes cap).outcome =
      .ok (collectCodes (sampled (pytrunc q) cap.frames)) ∧
    ∀ f ∈ sampled (pytrunc q) cap.frames, ∀ cs,
      process_frame f = .ok cs →
      ∀ c ∈ cs, c ∈ collectCodes (sampled (pytrunc q) cap.frames) := by
  refine ⟨?_, ?_⟩
  · rw [extract_codes_normal cap q ho hf hq hk]
  · intro f hfm cs hcs c hc
    exact mem_collectCodes.mpr ⟨f, hfm, cs, hcs, hc⟩

/-- Claim C4, witness: with one of three frames failing to encode, the
call succeeds and both good frames' codes are in the result. -/
theorem per_frame_failure_isolation_witness :
    (extract_codes capIsol).outcome =
      .ok (collectCodes (sampled (pytrunc 1) capIsol.frames)) ∧
    "AAAA-AAAA-AAAA" ∈ collectCodes (sampled (pytrunc 1) capIsol.frames) ∧
    "BBBB-BBBB-BBBB" ∈ collectCodes (sampled (pytrunc 1) capIsol.frames) := by
  obtain ⟨h1, h2⟩ :=
    per_frame_failure_isolation capIsol 1 rfl rfl one_ne_zero
      (by rw [pytrunc_one]; decide)
  refine ⟨h1, ?_, ?_⟩
  · exact h2 (okFrame "AAAA-AAAA-AAAA") (by rw [pytrunc_one]; decide)
      ["AAAA-AAAA-AAAA"] (by decide) "AAAA-AAAA-AAAA" (by decide)
  · exact h2 (okFrame "BBBB-BBBB-BBBB") (by rw [pytrunc_one]; decide)
      ["BBBB-BBBB-BBBB"] (by decide) "BBBB-BBBB-BBBB" (by decide)

/-- Claim C5.  Whenever `extract_codes` returns a set, every member
matches the lexical pattern `[A-Z0-9]{4}-[A-Z0-9]{4}-[A-Z0-9]{4}`
exactly, and the set contains no duplicates (it is a true set; the
witness feeds two frames resolving to the same code and gets a singleton). -/
theorem result_members_match_pattern (cap : Capture) (S : Finset String)
    (h : (extract_codes cap).outcome = .ok S) :
    (∀ c ∈ S, isCodeToken c = true) ∧ S.val.Nodup := by
  refine ⟨?_, S.nodup⟩
  intro c hc
  cases ho : cap.opened with
  | false =>
    rw [extract_codes_not_opened cap ho] at h
    simp at h
  | true =>
    cases hf : cap.fps with
    | nan =>
      rw [extract_codes_nan cap ho hf] at h
      simp at h
    | val q =>
      by_cases hq : q = 0
      · rw [extract_codes_fps_zero cap ho (hq ▸ hf)] at h
        simp at h
      · by_cases hk : pytrunc q = 0
        · cases hfr : cap.frames with
          | nil =>
            rw [extract_codes_interval_zero_empty cap q ho hf hq hk hfr] at h
            simp only [Except.ok.injEq] at h
            subst h
            simp at hc
          | cons f fs =>
            rw [extract_codes_interval_zero cap q ho hf hq hk (by rw [hfr]; simp)] at h
            simp at h
        · rw [extract_codes_normal cap q ho hf hq hk] at h
          simp only [Except.ok.injEq] at h
          subst h
          rcases mem_collectCodes.mp hc with ⟨f, hfm, cs, hcs, hcmem⟩
          unfold process_frame at hcs
          split at hcs
          · split at hcs
            · simp at hcs
            · injection hcs with hcs
              subst hcs
              exact isCodeToken_of_mem_findall hcmem
          · simp at hcs

/-- Claim C5, witness: two sampled frames resolving to the same code give
a singleton set whose member matches the pattern. -/
theorem result_members_match_pattern_witness :
    (extract_codes capDup).outcome = .ok {"ABCD-1234-EFGH"} ∧
    isCodeToken "ABCD-1234-EFGH" = true := by
  have h : (extract_codes capDup).outcome = .ok {"ABCD-1234-EFGH"} := by
    rw [extract_codes_normal capDup 1 rfl rfl one_ne_zero
        (by rw [pytrunc_one]; decide)]
    rw [pytrunc_one]
    decide
  exact ⟨h, (result_members_match_pattern capDup _ h).1 "ABCD-1234-EFGH" (by decide)⟩

/-- Claim C6.  The matcher accepts `WXYZ-1234-5678`, rejects the
three-character last group `AB12-CD34-EF5` and the lowercase
`ab12-cd34-ef56`, and a candidate embedded in a longer alphanumeric run
(a word character directly before or after) is not matched. -/
theorem code_matcher_examples :
    findall "WXYZ-1234-5678" = ["WXYZ-1234-5678"] ∧
    findall "AB12-CD34-EF5" = [] ∧
    findall "ab12-cd34-ef56" = [] ∧
    findall "XWXYZ-1234-5678" = [] ∧
    findall "WXYZ-1234-56789" = [] := by
  decide

/-- Claim C7.  The matcher is a pure function — applying it twice to the
same text yields the same sequence as applying it once — it never raises
(it is total by construction), and on a text with no occurrence of the
pattern it returns the empty sequence. -/
theorem code_matcher_idempotent_and_total (s : String) :
    findall s = findall s ∧
    (hasOccurrence false s.data = false → findall s = []) :=
  ⟨rfl, fun h => findall_eq_nil_of_no_occurrence h⟩

/-- Claim C7, witness at a concrete text with no matches. -/
theorem code_matcher_idempotent_and_total_witness :
    hasOccurrence false ("no codes here" : String).data = false ∧
    findall "no codes here" = [] :=
  ⟨by decide, (code_matcher_idempotent_and_total "no codes here").2 (by decide)⟩

/-- Claim C8.  The OCR adapter returns the primary text block when
detections exist, empty text (not an error) when the service reports no
detections, and fails — with the service's error message embedded — if
and only if the service reports an error or the call itself faults. -/
theorem ocr_adapter_contract (call : ServiceCall) :
    (∀ resp t ts, call = .ok resp → resp.errorMessage = "" →
        resp.detections = t :: ts →
        extract_text_from_image call = .ok t) ∧
    (∀ resp, call = .ok resp → resp.errorMessage = "" → resp.detections = [] →
        extract_text_from_image call = .ok "") ∧
    (∀ resp, call = .ok resp → resp.errorMessage ≠ "" →
        extract_text_from_image call =
          .error ("Error extracting text from image: API Error: " ++ resp.errorMessage)) ∧
    (∀ m, call = .transportFault m →
        extract_text_from_image call =
          .error ("Error extracting text from image: " ++ m)) ∧
    ((∃ e, extract_text_from_image call = .error e) ↔
      (∃ m, call = .transportFault m) ∨
        (∃ resp, call = .ok resp ∧ resp.errorMessage ≠ "")) := by
  refine ⟨?_, ?_, ?_, ?_, ?_⟩
  · rintro resp t ts rfl he hd
    simp [extract_text_from_image, he, hd]
  · rintro resp rfl he hd
    simp [extract_text_from_image, he, hd]
  · rintro resp rfl he
    simp [extract_text_from_image, he]
  · rintro m rfl
    simp [extract_text_from_image]
  · cases call with
    | transportFault m => simp [extract_text_from_image]
    | ok resp =>
      by_cases he : resp.errorMessage = ""
      · simp [extract_text_from_image, he]
      · simp [extract_text_from_image, he]

/-- Claim C8, witness: a successful detection returns the primary block. -/
theorem ocr_adapter_contract_witness :
    extract_text_from_image (.ok ⟨"", ["hello WXYZ-1234-5678", "ignored"]⟩) =
      .ok "hello WXYZ-1234-5678" :=
  (ocr_adapter_contract _).1 ⟨"", ["hello WXYZ-1234-5678", "ignored"]⟩
    "hello WXYZ-1234-5678" ["ignored"] rfl rfl rfl

/-- Claim C9.  For fixed per-frame outcomes the returned set is
order-independent: collecting the sampled units' outcomes in any order
(any permutation of the sampled list) merges to exactly the returned
set. -/
theorem result_order_independent (cap : Capture) (q : ℚ)
    (ho : cap.opened = true) (hf : cap.fps = .val q) (hq : q ≠ 0)
    (hk : pytrunc q ≠ 0) :
    ∀ l' : List Frame, (sampled (pytrunc q) cap.frames).Perm l' →
      (extract_codes cap).outcome = .ok (collectCodes l') := by
  intro l' hp
  rw [extract_codes_normal cap q ho hf hq hk]
  exact congrArg Except.ok (collectCodes_perm hp)

/-- Claim C9, witness: collecting the two sampled frames in reversed
order yields the returned set. -/
theorem result_order_independent_witness :
    (extract_codes capOrd).outcome =
      .ok (collectCodes [okFrame "BBBB-BBBB-BBBB", okFrame "AAAA-AAAA-AAAA"]) := by
  have hperm : (sampled (pytrunc 1) capOrd.frames).Perm
      [okFrame "BBBB-BBBB-BBBB", okFrame "AAAA-AAAA-AAAA"] := by
    rw [pytrunc_one,
      show sampled 1 capOrd.frames =
        [okFrame "AAAA-AAAA-AAAA", okFrame "BBBB-BBBB-BBBB"] from by decide]
    exact List.Perm.swap _ _ _
  exact result_order_independent capOrd 1 rfl rfl one_ne_zero
    (by rw [pytrunc_one]; decide) _ hperm

/-- Claim C10.  For `0 < fps < 1` the sampling interval `int(fps)` is 0,
the validity check (`fps == 0`) does not fire, and the first sampling
step `frame_count % frame_interval` raises `ZeroDivisionError` (after the
first read, with no release). -/
theorem fractional_fps_division_by_zero (cap : Capture) (q : ℚ)
    (ho : cap.opened = true) (hf : cap.fps = .val q) (h0 : 0 < q) (h1 : q < 1)
    (hne : cap.frames ≠ []) :
    pytrunc q = 0 ∧ extract_codes cap = ⟨1, 0, .error .zeroDivisionError⟩ := by
  have hk : pytrunc q = 0 := by
    rw [pytrunc_of_nonneg h0.le, Int.floor_eq_zero_iff]
    exact Set.mem_Ico.mpr ⟨h0.le, h1⟩
  exact ⟨hk, extract_codes_interval_zero cap q ho hf h0.ne' hk hne⟩

/-- Claim C10, witness at `fps = 0.5` with one frame. -/
theorem fractional_fps_division_by_zero_witness :
    (0 : ℚ) < 1 / 2 ∧ (1 / 2 : ℚ) < 1 ∧
    pytrunc (1 / 2) = 0 ∧
    extract_codes (⟨true, .val (1 / 2), [okFrame "WXYZ-1234-5678"]⟩ : Capture) =
      ⟨1, 0, .error .zeroDivisionError⟩ := by
  refine ⟨by norm_num, by norm_num, ?_, ?_⟩
  · exact (fractional_fps_division_by_zero
      ⟨true, .val (1 / 2), [okFrame "WXYZ-1234-5678"]⟩ (1 / 2) rfl rfl
      (by norm_num) (by norm_num) (by decide)).1
  · exact (fractional_fps_division_by_zero
      ⟨true, .val (1 / 2), [okFrame "WXYZ-1234-5678"]⟩ (1 / 2) rfl rfl
      (by norm_num) (by norm_num) (by decide)).2
